import Mathlib

/-!
Verification of the PdM (predictive-maintenance) platform core.

This file gives a shallow embedding of the anomaly-detection core of the
repository and proves / refutes the frozen claims about it.  The embedded
code is:

* `backend/ml_service/main.py` — the ML service: per-machine streaming
  history (`deque(maxlen=100)`), feature extraction, rule-based scoring,
  training, ensemble prediction and the `/ingest` handler.
* `edge/aispark_edge_gateway.py` — the edge gateway: local z-score
  anomaly detection and the batch sync of unsynced sensor-reading rows.

Modelling conventions, used throughout and noted again at the relevant
definitions:

* Machine floats are modelled as `ℚ`.  Sensor values are `Option ℚ`:
  `none` is a missing / non-numeric value (`sensor_data.get(...)`
  returning `None`, or a string that `float()` rejects — both make
  `_safe_float` return `0.0`).  The float `nan` is not representable in
  this model; consequently the pandas `dropna` / `fillna` and the numpy
  `isnan` / `nan_to_num` steps of the source, which act only on NaN
  entries, are identity operations here (each such place is noted).
* `numpy`/`pandas` square roots (inside standard deviations) are
  modelled by an abstract function `rsqrt : ℚ → ℚ`; every theorem that
  depends on a standard deviation being zero only uses `rsqrt 0 = 0`.
* Python's `round(x, 3)` (banker's rounding to 3 decimals) is modelled
  exactly by `pyRound3` below, via round-half-to-even on `x * 1000`.
* The fitted `StandardScaler` and `IsolationForest` are opaque: a
  `Scaler` is a function on feature vectors, an `MLModel` gives a
  decision score and a predicted label.  Fitting them is an abstract
  fallible function in the configuration (`MLConfig.fit`); a raised
  exception is its `.error` result.
* Wall-clock timestamps (from `datetime.utcnow()`) are omitted from records.
-/

set_option linter.unusedVariables false

namespace PdM

/-! ## Python `round(·, 3)`: round half to even -/

/-- Round half to even to an integer, as Python's builtin `round` does.
`Rat.floor` is used rather than `⌊·⌋` so the function kernel-evaluates;
`rhe_eq_floor_form` restates it with `⌊·⌋`. -/
def rhe (q : ℚ) : ℤ :=
  if q - q.floor < 1/2 then q.floor
  else if 1/2 < q - q.floor then q.floor + 1
  else if q.floor % 2 = 0 then q.floor else q.floor + 1

/-- Python's `round(q, 3)`. -/
def pyRound3 (q : ℚ) : ℚ := (rhe (q * 1000) : ℚ) / 1000

lemma ratFloor_eq (q : ℚ) : (q.floor : ℤ) = ⌊q⌋ := by
  rw [Rat.floor_def', Rat.floor_def]

lemma rhe_eq_floor_form (q : ℚ) :
    rhe q = if q - ⌊q⌋ < 1/2 then ⌊q⌋
      else if 1/2 < q - ⌊q⌋ then ⌊q⌋ + 1
      else if ⌊q⌋ % 2 = 0 then ⌊q⌋ else ⌊q⌋ + 1 := by
  simp only [rhe, ratFloor_eq]

lemma rhe_intCast (n : ℤ) : rhe (n : ℚ) = n := by
  rw [rhe_eq_floor_form]
  simp [Int.floor_intCast]

lemma rhe_ge_floor (q : ℚ) : ⌊q⌋ ≤ rhe q := by
  rw [rhe_eq_floor_form]; split_ifs <;> omega

lemma rhe_le_floor_add_one (q : ℚ) : rhe q ≤ ⌊q⌋ + 1 := by
  rw [rhe_eq_floor_form]; split_ifs <;> omega

lemma rhe_mono : Monotone rhe := by
  intro a b hab
  have hfm : ⌊a⌋ ≤ ⌊b⌋ := Int.floor_mono hab
  rcases eq_or_lt_of_le hfm with heq | hlt
  · rw [rhe_eq_floor_form, rhe_eq_floor_form, ← heq]
    have hfr : a - (⌊a⌋ : ℚ) ≤ b - (⌊a⌋ : ℚ) := by linarith
    split_ifs <;> first | omega | linarith
  · calc rhe a ≤ ⌊a⌋ + 1 := rhe_le_floor_add_one a
    _ ≤ ⌊b⌋ := by omega
    _ ≤ rhe b := rhe_ge_floor b

lemma pyRound3_mono : Monotone pyRound3 := by
  intro a b hab
  unfold pyRound3
  have h := rhe_mono (mul_le_mul_of_nonneg_right hab (by norm_num : (0:ℚ) ≤ 1000))
  have h' : ((rhe (a * 1000) : ℤ) : ℚ) ≤ (rhe (b * 1000) : ℚ) := by exact_mod_cast h
  linarith

lemma pyRound3_max (a b : ℚ) : pyRound3 (max a b) = max (pyRound3 a) (pyRound3 b) :=
  pyRound3_mono.map_max

/-- The map `pyRound3` is the identity on exact multiples of `1/1000`. -/
lemma pyRound3_of_mul_int (q : ℚ) (k : ℤ) (h : q * 1000 = (k : ℚ)) : pyRound3 q = q := by
  have hq : q = (k : ℚ) / 1000 := by
    field_simp at h ⊢
    linarith
  rw [pyRound3, h, rhe_intCast, ← hq]

lemma pyRound3_idem (q : ℚ) : pyRound3 (pyRound3 q) = pyRound3 q := by
  apply pyRound3_of_mul_int _ (rhe (q * 1000))
  rw [pyRound3]
  field_simp

/-! ## numpy / pandas aggregates over a list of rationals -/

/-- Pandas `values.mean()`: arithmetic mean. Only applied to non-empty lists. -/
def npMean (xs : List ℚ) : ℚ := xs.sum / xs.length

/-- pandas `Series.std()` uses `ddof=1`; this is the squared value
(sample variance), whose square root is taken by the abstract `rsqrt`. -/
def sampleVar (xs : List ℚ) : ℚ :=
  (xs.map (fun x => (x - npMean xs) ^ 2)).sum / ((xs.length - 1 : ℕ) : ℚ)

/-- numpy `np.std` uses `ddof=0`; squared value (population variance). -/
def popVar (xs : List ℚ) : ℚ :=
  (xs.map (fun x => (x - npMean xs) ^ 2)).sum / (xs.length : ℚ)

/-- Pandas `values.min()` (0 on an empty list, which never occurs in use). -/
def npMin : List ℚ → ℚ
  | [] => 0
  | x :: xs => xs.foldl min x

/-- Pandas `values.max()`. -/
def npMax : List ℚ → ℚ
  | [] => 0
  | x :: xs => xs.foldl max x

/-- Population variance of a one-element list is exactly 0. -/
lemma popVar_singleton (x : ℚ) : popVar [x] = 0 := by
  simp [popVar, npMean]

/-! ## `collections.deque(maxlen=N)` -/

/-- Appending to a `deque(maxlen=N)`: the new element goes to the back
and the front is discarded when the capacity would be exceeded. -/
def dequeAppend (N : ℕ) (buf : List α) (x : α) : List α :=
  (buf ++ [x]).drop (buf.length + 1 - N)

lemma dequeAppend_length (N : ℕ) (buf : List α) (x : α) :
    (dequeAppend N buf x).length = min (buf.length + 1) N := by
  simp only [dequeAppend, List.length_drop, List.length_append, List.length_singleton]
  omega

lemma dequeAppend_foldl_nil (N : ℕ) (xs : List α) :
    xs.foldl (dequeAppend N) [] = xs.drop (xs.length - N) := by
  induction xs using List.reverseRecOn with
  | nil => simp
  | append_singleton t x ih =>
    rw [List.foldl_append, List.foldl_cons, List.foldl_nil, ih, dequeAppend]
    have hsplit : (t ++ [x]).drop (t.length - N) =
        t.drop (t.length - N) ++ [x] := by
      rw [List.drop_append_eq_append_drop, Nat.sub_eq_zero_of_le (Nat.sub_le _ _),
        List.drop_zero]
    rw [← hsplit, List.drop_drop, List.length_drop, List.length_append]
    congr 1
    simp only [List.length_singleton]
    omega

lemma dequeAppend_foldl_nil_length (N : ℕ) (xs : List α) :
    (xs.foldl (dequeAppend N) []).length = min xs.length N := by
  rw [dequeAppend_foldl_nil, List.length_drop]
  omega

/-! ## Python `dict` keyed by machine id -/

/-- Lookup in a Python dict modelled as an association list. -/
def alookup (l : List (String × α)) (k : String) : Option α :=
  match l with
  | [] => none
  | (k', v) :: t => if k' = k then some v else alookup t k

/-- Python `d[k] = v` on a dict: replace the existing binding or append. -/
def upsert (l : List (String × α)) (k : String) (v : α) : List (String × α) :=
  match l with
  | [] => [(k, v)]
  | (k', v') :: t => if k' = k then (k, v) :: t else (k', v') :: upsert t k v

lemma alookup_upsert_self (l : List (String × α)) (k : String) (v : α) :
    alookup (upsert l k v) k = some v := by
  induction l with
  | nil => simp [alookup, upsert]
  | cons h t ih =>
    obtain ⟨k', v'⟩ := h
    by_cases hk : k' = k
    · simp [alookup, upsert, hk]
    · simp [alookup, upsert, hk, ih]

lemma alookup_upsert_ne (l : List (String × α)) (k k' : String) (v : α) (h : k' ≠ k) :
    alookup (upsert l k v) k' = alookup l k' := by
  have hkk' : ¬(k = k') := fun hh => h hh.symm
  induction l with
  | nil =>
    simp only [upsert, alookup]
    rw [if_neg hkk']
  | cons hd t ih =>
    obtain ⟨k₀, v₀⟩ := hd
    by_cases hk : k₀ = k
    · subst hk
      simp only [upsert, if_pos rfl, alookup]
      rw [if_neg hkk', if_neg hkk']
    · simp only [upsert, if_neg hk, alookup]
      by_cases hk' : k₀ = k'
      · rw [if_pos hk', if_pos hk']
      · rw [if_neg hk', if_neg hk', ih]

/-! ## Data model of `backend/ml_service/main.py`

A reading is the ingested JSON object; the scoring code only ever reads
`reading.get('sensor_data', {})` and, inside it, the four channels
`temperature_c`, `current_a`, `power_w`, `vibration_x_g`; all other keys
(machine id, timestamp, source tag) are never consulted by the embedded
logic, so `Reading` keeps only the sensor data.  A channel value is
`none` when the key is absent, is `None`, or holds a value `float()`
rejects — `_safe_float` maps all of those to `0.0`. -/

structure SensorData where
  temperature_c : Option ℚ
  current_a : Option ℚ
  power_w : Option ℚ
  vibration_x_g : Option ℚ
deriving DecidableEq

structure Reading where
  sensor_data : SensorData
deriving DecidableEq

/-- Embeds `SimpleMLEngine._safe_float`: `None` / non-numeric becomes `0.0`. -/
def safe_float (v : Option ℚ) : ℚ := v.getD 0

/-- A fitted `StandardScaler`, opaque: `transform` on one feature row. -/
structure Scaler where
  transform : List ℚ → List ℚ

/-- A fitted `IsolationForest`, opaque: `decision_function` and
`predict` (label `-1` means anomaly) on one (scaled) feature row. -/
structure MLModel where
  decision : List ℚ → ℚ
  label : List ℚ → ℤ

/-- Environment of the service: whether the sklearn import succeeded
(`ML_AVAILABLE`), the abstract square root used inside numpy/pandas
standard deviations, and the abstract fallible fitting step
(`StandardScaler.fit_transform` + `IsolationForest.fit`; `.error` is a
raised exception, caught by `train_model`'s `except` block). -/
structure MLConfig where
  mlAvailable : Bool
  rsqrt : ℚ → ℚ
  fit : List (List ℚ) → Except String (Scaler × MLModel)

/-- Embeds `SimpleMLEngine.models` and `SimpleMLEngine.scalers`. -/
structure Engine where
  models : List (String × MLModel)
  scalers : List (String × Scaler)

/-- Configuration constants of the service. -/
def HISTORY_SIZE : ℕ := 100

def TRAINING_SIZE : ℕ := 30

def ANOMALY_THRESHOLD : ℚ := 7/10

/-! ## Feature extraction (`SimpleMLEngine.safe_extract_features`)

The source builds a pandas DataFrame whose rows are
`{'temperature_c': _safe_float(..), 'current_a': _safe_float(..),
'power_w': _safe_float(..), 'vibration_x_g': _safe_float(..)}`.
Because `_safe_float` is total (missing and malformed values become
`0.0`) and NaN is not representable in this model, the DataFrame never
contains NaN, so:

* `df.dropna(axis=1, how='all')` (drop all-NaN columns) drops nothing:
  the column set is always the four channels in insertion order;
* the `df.empty or len(df.columns) == 0` guard is never taken;
* `df.fillna(df.mean()).fillna(0)` fills nothing.

The loop then appends `[mean, std, min, max]` per column (pandas
`Series.std()`, `ddof=1`, guarded to `0.0` when the window length is 1),
and the result is non-empty, so the final `if features` guard always
yields the vector.  Hence for a window of ≥ 3 readings the function
always returns a 16-entry vector. -/

/-- One DataFrame column: the `_safe_float`-coerced channel values. -/
def channelCol (readings : List Reading) (ch : SensorData → Option ℚ) : List ℚ :=
  readings.map (fun r => safe_float (ch r.sensor_data))

/-- The list `[values.mean(), values.std() or 0.0, values.min(), values.max()]`. -/
def colStats (rsq : ℚ → ℚ) (xs : List ℚ) : List ℚ :=
  [npMean xs, if 1 < xs.length then rsq (sampleVar xs) else 0, npMin xs, npMax xs]

/-- Embeds `SimpleMLEngine.safe_extract_features` (flattened: the source
reshapes to a 1×n matrix; we keep the single row). -/
def safe_extract_features (rsq : ℚ → ℚ) (readings : List Reading) : Option (List ℚ) :=
  if readings.length < 3 then none
  else some
    (colStats rsq (channelCol readings (fun s => s.temperature_c))
      ++ colStats rsq (channelCol readings (fun s => s.current_a))
      ++ colStats rsq (channelCol readings (fun s => s.power_w))
      ++ colStats rsq (channelCol readings (fun s => s.vibration_x_g)))

lemma colStats_length (rsq : ℚ → ℚ) (xs : List ℚ) : (colStats rsq xs).length = 4 := by
  simp [colStats]

lemma safe_extract_features_of_three_le (rsq : ℚ → ℚ) (readings : List Reading)
    (h : 3 ≤ readings.length) :
    safe_extract_features rsq readings =
      some (colStats rsq (channelCol readings (fun s => s.temperature_c))
        ++ colStats rsq (channelCol readings (fun s => s.current_a))
        ++ colStats rsq (channelCol readings (fun s => s.power_w))
        ++ colStats rsq (channelCol readings (fun s => s.vibration_x_g))) := by
  rw [safe_extract_features, if_neg (by omega)]

lemma safe_extract_features_length (rsq : ℚ → ℚ) (readings : List Reading)
    (h : 3 ≤ readings.length) :
    ∃ v, safe_extract_features rsq readings = some v ∧ v.length = 16 := by
  refine ⟨_, safe_extract_features_of_three_le rsq readings h, ?_⟩
  simp [List.length_append, colStats_length]

/-! ## Verdicts and the rule-based scorer -/

/-- The prediction dict returned by `predict_anomaly` /
`_simple_rule_based_prediction` (timestamp omitted; `ml_prediction` and
`ml_score` are only present on the ML path). -/
structure Verdict where
  anomaly_detected : Bool
  anomaly_score : ℚ
  confidence : ℚ
  alerts : List String
  method : String
  ml_prediction : Option Bool := none
  ml_score : Option ℚ := none
deriving DecidableEq

/-- Embeds `SimpleMLEngine._simple_rule_based_prediction`.  The `machine_id`
argument of the source is unused by its body; the trailing `except`
branch (`error_fallback`) is unreachable because every step here is
total. -/
def simple_rule_based_prediction (machine_id : String) (recent_readings : List Reading) :
    Verdict :=
  match recent_readings.getLast? with
  | none =>
    { anomaly_detected := false, anomaly_score := 0, confidence := 0,
      alerts := [], method := "rule_based" }
  | some latest =>
    let sd := latest.sensor_data
    let temp := safe_float sd.temperature_c
    let sa1 : ℚ × List String :=
      if 150 < temp then (max 0 (9/10), ["Critical temperature detected"])
      else if 100 < temp then (max 0 (7/10), ["High temperature warning"])
      else (0, [])
    let vib := |safe_float sd.vibration_x_g|
    let sa2 : ℚ × List String :=
      if 1 < vib then (max sa1.1 (4/5), sa1.2 ++ ["Critical vibration detected"])
      else if 1/2 < vib then (max sa1.1 (3/5), sa1.2 ++ ["High vibration warning"])
      else sa1
    let power := safe_float sd.power_w
    let sa3 : ℚ × List String :=
      if 5000 < power ∨ power < 10 then (max sa2.1 (1/2), sa2.2 ++ ["Power consumption anomaly"])
      else sa2
    { anomaly_detected := decide (ANOMALY_THRESHOLD < sa3.1),
      anomaly_score := pyRound3 sa3.1,
      confidence := 4/5,
      alerts := sa3.2,
      method := "rule_based" }

/-- The rule verdict's score field is already `round(score, 3)` of the
raw rule score, so rounding it again is the identity. -/
lemma rule_score_round_fixed (machine_id : String) (recent : List Reading) :
    pyRound3 (simple_rule_based_prediction machine_id recent).anomaly_score =
      (simple_rule_based_prediction machine_id recent).anomaly_score := by
  rw [simple_rule_based_prediction]
  cases recent.getLast? with
  | none => exact pyRound3_of_mul_int _ 0 (by norm_num)
  | some latest => exact pyRound3_idem _

/-! ## Baseline statistics (`SimpleMLEngine._calculate_baseline_stats`)

The source writes into the global `baseline_stats` dict; here the
baseline map is threaded explicitly through `train_model`.  The
`trained_at` wall-clock field is omitted.  The function's own
`try/except` never fires: every step below is total. -/

structure Baseline where
  temperature_mean : ℚ
  temperature_std : ℚ
  power_mean : ℚ
  power_std : ℚ
  vibration_mean : ℚ
  vibration_std : ℚ
  training_samples : ℕ

def calculate_baseline_stats (rsq : ℚ → ℚ) (readings : List Reading) : Baseline :=
  let temps := readings.filterMap (fun r =>
    let t := safe_float r.sensor_data.temperature_c
    if 0 < t then some t else none)
  let powers := readings.filterMap (fun r =>
    let p := safe_float r.sensor_data.power_w
    if 0 < p then some p else none)
  let vibs := readings.filterMap (fun r =>
    let v := safe_float r.sensor_data.vibration_x_g
    if |v| < 10 then some |v| else none)
  { temperature_mean := if temps.isEmpty then 0 else npMean temps,
    temperature_std := if 1 < temps.length then rsq (popVar temps) else 0,
    power_mean := if powers.isEmpty then 0 else npMean powers,
    power_std := if 1 < powers.length then rsq (popVar powers) else 0,
    vibration_mean := if vibs.isEmpty then 0 else npMean vibs,
    vibration_std := if 1 < vibs.length then rsq (popVar vibs) else 0,
    training_samples := readings.length }

/-! ## Training (`SimpleMLEngine.train_model`) -/

/-- The training result dict, by `status`. -/
inductive TrainResult where
  | mlUnavailable
  | insufficientData (required available : ℕ)
  | insufficientFeatures (features_extracted minimum_required : ℕ)
  | trainingError (error : String)
  | success (training_samples features : ℕ)
deriving DecidableEq

def TrainResult.isSuccess : TrainResult → Bool
  | .success _ _ => true
  | _ => false

/-- The windowed training matrix: overlapping windows of size
`min(5, len(readings)//5)`, one 16-entry feature row per window.  The
source drops windows with a `None` extraction or a NaN entry; with ≥ 30
readings each window has ≥ 5 entries so extraction never returns `None`,
and NaN is not representable here, so `filterMap` keeps every row. -/
def training_features (rsq : ℚ → ℚ) (readings : List Reading) : List (List ℚ) :=
  let window_size := min 5 (readings.length / 5)
  (List.range (readings.length - window_size + 1)).filterMap
    (fun i => safe_extract_features rsq ((readings.drop i).take window_size))

/-- Embeds `SimpleMLEngine.train_model`.  The state it mutates — the engine's
`models`/`scalers` and the global `baseline_stats` — is passed in and
returned.  `np.nan_to_num` is the identity here (no NaN/inf
representable).  In the source the only fallible steps of the `try`
block are `scaler.fit_transform` and `model.fit` (both before any state
mutation); they are the abstract `cfg.fit`, whose `.error` outcome is
the `except` branch (`training_error`). -/
def train_model (cfg : MLConfig) (e : Engine) (b : List (String × Baseline))
    (machine_id : String) (readings : List Reading) :
    Engine × List (String × Baseline) × TrainResult :=
  if cfg.mlAvailable = false then (e, b, .mlUnavailable)
  else if readings.length < TRAINING_SIZE then
    (e, b, .insufficientData TRAINING_SIZE readings.length)
  else
    let tf := training_features cfg.rsqrt readings
    if tf.length < 5 then (e, b, .insufficientFeatures tf.length 5)
    else
      match cfg.fit tf with
      | .error msg => (e, b, .trainingError msg)
      | .ok (scaler, mdl) =>
        ({ models := upsert e.models machine_id mdl,
           scalers := upsert e.scalers machine_id scaler },
         upsert b machine_id (calculate_baseline_stats cfg.rsqrt readings),
         .success tf.length (tf.headD []).length)

/-! ## Ensemble prediction (`SimpleMLEngine.predict_anomaly`) -/

/-- Computes `max(0, min(1, (0.5 - anomaly_score) * 2))`. -/
def normalizeModelScore (raw : ℚ) : ℚ := max 0 (min 1 ((1/2 - raw) * 2))

/-- Embeds `SimpleMLEngine.predict_anomaly`.  The fallbacks to the rule-based
path mirror the source: ML libraries unavailable, no model for the
machine, feature extraction returning `None`, and the `except` branch —
whose only reachable cause in this model is the `self.scalers[machine_id]`
`KeyError` when a scaler is missing (`scaler.transform` and the model
calls are total here). -/
def predict_anomaly (cfg : MLConfig) (e : Engine) (machine_id : String)
    (recent_readings : List Reading) : Verdict :=
  if cfg.mlAvailable = false then simple_rule_based_prediction machine_id recent_readings
  else
    match alookup e.models machine_id with
    | none => simple_rule_based_prediction machine_id recent_readings
    | some mdl =>
      match safe_extract_features cfg.rsqrt recent_readings with
      | none => simple_rule_based_prediction machine_id recent_readings
      | some features =>
        match alookup e.scalers machine_id with
        | none => simple_rule_based_prediction machine_id recent_readings
        | some scaler =>
          let features_scaled := scaler.transform features
          let anomaly_score := mdl.decision features_scaled
          let is_anomaly := decide (mdl.label features_scaled = -1)
          let normalized_score := normalizeModelScore anomaly_score
          let rule_based := simple_rule_based_prediction machine_id recent_readings
          let final_score := max normalized_score rule_based.anomaly_score
          { anomaly_detected := decide (ANOMALY_THRESHOLD < final_score),
            anomaly_score := pyRound3 final_score,
            confidence := pyRound3 (min 1 ((recent_readings.length : ℚ) / 10)),
            ml_prediction := some is_anomaly,
            ml_score := some (pyRound3 anomaly_score),
            alerts := rule_based.alerts,
            method := "ml_with_rules" }

/-! ## The `/ingest` handler (`ingest_sensor_data`)

Global state of the service: `sensor_history` (the `deque(maxlen=100)`
per machine), the engine's model/scaler dicts and `baseline_stats`.
The handler appends the reading, auto-trains when the machine has no
model and the buffer holds at least `TRAINING_SIZE` readings, and then
predicts: with the last 5 readings through `predict_anomaly` when a
model now exists and at least 3 readings are buffered, otherwise
rule-based on the single newest reading. -/

structure ServiceState where
  sensor_history : List (String × List Reading)
  engine : Engine
  baseline : List (String × Baseline)

/-- Python slicing `l[-n:]`. -/
def takeLast (n : ℕ) (l : List α) : List α := l.drop (l.length - n)

/-- Result of one `/ingest` call: the new global state, whether
auto-training was attempted (i.e. `train_model` was called), its result
when so, and the response fields. -/
structure IngestResult where
  state : ServiceState
  attemptedTrain : Bool
  trainResult : Option TrainResult
  total_readings : ℕ
  model_trained : Bool
  prediction : Option Verdict

def ingest_sensor_data (cfg : MLConfig) (st : ServiceState) (machine_id : String)
    (reading : Reading) : IngestResult :=
  let hist0 := (alookup st.sensor_history machine_id).getD []
  let hist1 := dequeAppend HISTORY_SIZE hist0 reading
  let attempt := (alookup st.engine.models machine_id).isNone
    && decide (TRAINING_SIZE ≤ hist1.length)
  let trained :=
    if attempt then
      let r := train_model cfg st.engine st.baseline machine_id hist1
      (r.1, r.2.1, some r.2.2)
    else (st.engine, st.baseline, none)
  let engine1 := trained.1
  let prediction : Option Verdict :=
    if (alookup engine1.models machine_id).isSome && decide (3 ≤ hist1.length) then
      some (predict_anomaly cfg engine1 machine_id (takeLast 5 hist1))
    else if 1 ≤ hist1.length then
      some (simple_rule_based_prediction machine_id (takeLast 1 hist1))
    else none
  { state := { sensor_history := upsert st.sensor_history machine_id hist1,
               engine := engine1,
               baseline := trained.2.1 },
    attemptedTrain := attempt,
    trainResult := trained.2.2,
    total_readings := hist1.length,
    model_trained := (alookup engine1.models machine_id).isSome,
    prediction := prediction }

/-- The buffered history of a machine (`sensor_history.get(m, [])`). -/
def histOf (st : ServiceState) (machine_id : String) : List Reading :=
  (alookup st.sensor_history machine_id).getD []

/-- A sequence of `/ingest` calls for one machine; returns the final state. -/
def ingestList (cfg : MLConfig) (st : ServiceState) (machine_id : String)
    (rs : List Reading) : ServiceState :=
  rs.foldl (fun s r => (ingest_sensor_data cfg s machine_id r).state) st

/-- A sequence of `/ingest` calls for possibly different machines;
returns the final state and, per call, the machine and whether
auto-training was attempted. -/
def ingestSteps (cfg : MLConfig) (st : ServiceState) :
    List (String × Reading) → ServiceState × List (String × Bool)
  | [] => (st, [])
  | (m, r) :: rest =>
    let res := ingest_sensor_data cfg st m r
    let next := ingestSteps cfg res.state rest
    (next.1, (m, res.attemptedTrain) :: next.2)

lemma histOf_ingest (cfg : MLConfig) (st : ServiceState) (m : String) (r : Reading) :
    histOf (ingest_sensor_data cfg st m r).state m =
      dequeAppend HISTORY_SIZE (histOf st m) r := by
  simp only [histOf, ingest_sensor_data, alookup_upsert_self, Option.getD_some]

lemma histOf_ingestList (cfg : MLConfig) (st : ServiceState) (m : String)
    (rs : List Reading) :
    histOf (ingestList cfg st m rs) m =
      rs.foldl (dequeAppend HISTORY_SIZE) (histOf st m) := by
  induction rs generalizing st with
  | nil => rfl
  | cons r t ih =>
    rw [ingestList, List.foldl_cons, List.foldl_cons, ← histOf_ingest cfg st m r]
    exact ih _

end PdM

namespace Edge

/-! ## `edge/aispark_edge_gateway.py` -/

/-- One row of the `sensor_readings` SQLite table:
`(id, machine_id, timestamp, sensor_type, value, synced)`. `id` is the
`INTEGER PRIMARY KEY AUTOINCREMENT` column. -/
structure EdgeRow where
  id : ℕ
  machine_id : String
  timestamp : String
  sensor_type : String
  value : ℚ
  synced : Bool
deriving DecidableEq

/-- The payload of a row without its `synced` flag: the sync path never
touches these fields (and deletes no row). -/
def stripSynced (r : EdgeRow) : ℕ × String × String × String × ℚ :=
  (r.id, r.machine_id, r.timestamp, r.sensor_type, r.value)

/-- Outcome of the `requests.post` to
`/api/sensor-readings/batch`: the HTTP status code, or `none` when the
request raised (timeout / network error), caught by the `except`. -/
def PostOutcome := Option ℕ

/-- The query `SELECT * FROM sensor_readings WHERE synced = 0 LIMIT 1000`,
in rowid order. -/
def unsyncedBatch (rows : List EdgeRow) : List EdgeRow :=
  (rows.filter (fun r => !r.synced)).take 1000

/-- Applies `UPDATE sensor_readings SET synced = 1 WHERE id IN ids` to one row. -/
def markSynced (ids : List ℕ) (r : EdgeRow) : EdgeRow :=
  if r.id ∈ ids then { r with synced := true } else r

/-- Embeds `AISPARKEdgeGateway.sync_sensor_readings`: select the unsynced
batch; if empty, return; otherwise post it and, only on HTTP 200, mark
exactly the selected ids synced (`UPDATE ... SET synced = 1 WHERE id IN
(...)`).  A non-200 response or a raised exception leaves the table
untouched. -/
def sync_sensor_readings (post : Option ℕ) (rows : List EdgeRow) : List EdgeRow :=
  let batch := unsyncedBatch rows
  if batch.isEmpty then rows
  else if post = some 200 then
    rows.map (markSynced (batch.map (fun r => r.id)))
  else rows

/-! ## Edge-local anomaly detection

`get_recent_readings` is declared and called in the source but its body
is not part of the repository snapshot.  Modelled from the spec: the
edge tier keeps "locally computed mean/std over the trailing 24-hour
window", so `get_recent_readings(machine_id, hours=24)` returns the
machine's sensor-reading rows of the last 24 hours; the detection code
reads one numeric field (`r[3]`) per returned row, so the window is
passed here as the list of those per-row numbers.  Everything the
claims about `detect_anomaly_locally` rest on — the shape
`np.array([[r[3] for r in recent_readings]])`, a one-row matrix — is in
the source itself. -/

structure EdgeSensorData where
  machine_id : String
  temperature : Option ℚ
  vibration : Option ℚ
  power : Option ℚ

/-- The dict returned by `detect_anomaly_locally`; the `z_score` key is
present only on the main branch, `reason` only on the short-circuit
branch. -/
structure EdgeDetectResult where
  is_anomaly : Bool
  confidence : ℚ
  z_score : Option ℚ
  reason : Option String
deriving DecidableEq

/-- Column `j` of a numpy 2-d array given as a list of rows. -/
def colAt (m : List (List ℚ)) (j : ℕ) : List ℚ :=
  m.map (fun row => row.getD j 0)

/-- The list `current_values = [sensor_data.get('temperature', 0),
sensor_data.get('vibration', 0), sensor_data.get('power', 0)]`. -/
def edge_current_values (sensor_data : EdgeSensorData) : List ℚ :=
  [(sensor_data.temperature).getD 0, (sensor_data.vibration).getD 0,
    (sensor_data.power).getD 0]

/-- The matrix `historical_values = np.array([[r[3] for r in recent_readings]])`:
a single-row matrix (the source's `# Simplified` line). -/
def edge_historical_values (recent_readings : List ℚ) : List (List ℚ) :=
  [recent_readings]

/-- The vector `mean_vals = np.mean(historical_values, axis=0)`: per-column means
of the one-row matrix; its length is the number of readings. -/
def edge_mean_vals (recent_readings : List ℚ) : List ℚ :=
  (List.range recent_readings.length).map
    (fun j => PdM.npMean (colAt (edge_historical_values recent_readings) j))

/-- The vector `std_vals = np.std(historical_values, axis=0)`; `rsq` is the
abstract square root inside `np.std`. -/
def edge_std_vals (rsq : ℚ → ℚ) (recent_readings : List ℚ) : List ℚ :=
  (List.range recent_readings.length).map
    (fun j => rsq (PdM.popVar (colAt (edge_historical_values recent_readings) j)))

/-- The z-score collection loop: a z-score is appended only for the
(three) current values whose column standard deviation is positive.
The source indexes `std_vals[i]` / `mean_vals[i]` directly; `getD` with
default 0 models that — the guard `len(recent_readings) >= 10 > 3`
keeps every index in bounds, so the default is never consulted. -/
def edge_z_scores (rsq : ℚ → ℚ) (sensor_data : EdgeSensorData)
    (recent_readings : List ℚ) : List ℚ :=
  (edge_current_values sensor_data).enum.filterMap (fun p =>
    if 0 < (edge_std_vals rsq recent_readings).getD p.1 0 then
      some |(p.2 - (edge_mean_vals recent_readings).getD p.1 0) /
        (edge_std_vals rsq recent_readings).getD p.1 0|
    else none)

/-- Computes `max(z_scores) if z_scores else 0`. -/
def edge_max_z_score (rsq : ℚ → ℚ) (sensor_data : EdgeSensorData)
    (recent_readings : List ℚ) : ℚ :=
  match edge_z_scores rsq sensor_data recent_readings with
  | [] => 0
  | z :: zs => zs.foldl max z

/-- Embeds `AISPARKEdgeGateway.detect_anomaly_locally`. -/
def detect_anomaly_locally (rsq : ℚ → ℚ) (sensor_data : EdgeSensorData)
    (recent_readings : List ℚ) : EdgeDetectResult :=
  if recent_readings.length < 10 then
    { is_anomaly := false, confidence := 0, z_score := none,
      reason := some "insufficient_data" }
  else
    { is_anomaly := decide (3 < edge_max_z_score rsq sensor_data recent_readings),
      confidence := min (edge_max_z_score rsq sensor_data recent_readings / 5) 1,
      z_score := some (edge_max_z_score rsq sensor_data recent_readings),
      reason := none }

/-- The alert guard of `process_sensor_data_locally`:
`generate_local_alert` is called exactly when
`anomaly_result['is_anomaly'] and anomaly_result['confidence'] > 0.8`.
The surrounding calls (`store_locally`, `load_local_model`, the
background `sync_with_cloud` task) do not read or affect the anomaly
result. -/
def process_generates_local_alert (rsq : ℚ → ℚ) (sensor_data : EdgeSensorData)
    (recent_readings : List ℚ) : Bool :=
  let r := detect_anomaly_locally rsq sensor_data recent_readings
  r.is_anomaly && decide (4/5 < r.confidence)

end Edge

namespace PdM

/-! ## Concrete fixtures used by witnesses and counterexamples -/

/-- A nominal healthy reading (50 °C, 1 A, 100 W, 0.1 g). -/
def r0 : Reading :=
  { sensor_data :=
    { temperature_c := some 50, current_a := some 1, power_w := some 100,
      vibration_x_g := some (1/10) } }

/-- A reading with every sensor channel missing. -/
def rEmpty : Reading :=
  { sensor_data :=
    { temperature_c := none, current_a := none, power_w := none,
      vibration_x_g := none } }

/-- The identically-zero stand-in for the abstract square root. -/
def rzero : ℚ → ℚ := fun _ => 0

/-- A configuration in which the sklearn import failed. -/
def cfgNoML : MLConfig :=
  { mlAvailable := false, rsqrt := rzero, fit := fun _ => .error "ml unavailable" }

/-- A configuration with ML available whose fitting step always raises. -/
def cfgFitErr : MLConfig :=
  { mlAvailable := true, rsqrt := rzero, fit := fun _ => .error "fit raised" }

/-- The empty service state (fresh process). -/
def st0 : ServiceState :=
  { sensor_history := [], engine := { models := [], scalers := [] }, baseline := [] }

/-- A trivial fitted model/scaler pair for witnesses of the ML path. -/
def mdl0 : MLModel := { decision := fun _ => 0, label := fun _ => 1 }

def scl0 : Scaler := { transform := fun v => v }

/-- An engine holding a trained model and scaler for machine `"m1"`. -/
def eng1 : Engine := { models := [("m1", mdl0)], scalers := [("m1", scl0)] }

/-! ## Claim C3: the per-machine history buffer -/

/-- C3: for every machine and every sequence of `N + k` ingested
readings (`N = HISTORY_SIZE = 100`) starting from a state with no
history for that machine, the buffer afterwards is exactly the last `N`
readings in insertion order, and after every intermediate prefix of the
ingest sequence the buffer's length is at most `N`. -/
theorem C3_history_buffer_bounded_fifo (cfg : MLConfig) (st : ServiceState)
    (m : String) (xs : List Reading) (k : ℕ)
    (hfresh : alookup st.sensor_history m = none)
    (hlen : xs.length = HISTORY_SIZE + k) :
    histOf (ingestList cfg st m xs) m = xs.drop k
    ∧ ∀ i : ℕ, (histOf (ingestList cfg st m (xs.take i)) m).length ≤ HISTORY_SIZE := by
  have h0 : histOf st m = [] := by rw [histOf, hfresh]; rfl
  constructor
  · rw [histOf_ingestList, h0, dequeAppend_foldl_nil]
    have hk : xs.length - HISTORY_SIZE = k := by omega
    rw [hk]
  · intro i
    rw [histOf_ingestList, h0, dequeAppend_foldl_nil_length]
    exact Nat.min_le_right _ _

theorem C3_witness :
    alookup st0.sensor_history "m1" = none
    ∧ (List.replicate 103 r0).length = HISTORY_SIZE + 3
    ∧ histOf (ingestList cfgNoML st0 "m1" (List.replicate 103 r0)) "m1"
        = (List.replicate 103 r0).drop 3 :=
  ⟨rfl, of_decide_eq_true (by with_unfolding_all rfl),
    (C3_history_buffer_bounded_fifo cfgNoML st0 "m1" (List.replicate 103 r0) 3 rfl
      (of_decide_eq_true (by with_unfolding_all rfl))).1⟩

/-! ## Claim C4: undersized training is rejected without state change -/

/-- C4: with the ML libraries available, training on fewer than
`TRAINING_SIZE = 30` readings returns the `insufficient_data` result and
returns the engine's model and scaler dicts and the baseline-stats map
exactly as they were.  (When the sklearn import failed the same call
returns `ml_unavailable` instead — also without state change, see the
C10 theorem.) -/
theorem C4_insufficient_data_no_state_change (cfg : MLConfig) (e : Engine)
    (b : List (String × Baseline)) (machine_id : String) (readings : List Reading)
    (hml : cfg.mlAvailable = true) (hlen : readings.length < TRAINING_SIZE) :
    train_model cfg e b machine_id readings =
      (e, b, .insufficientData TRAINING_SIZE readings.length) := by
  rw [train_model, if_neg (by rw [hml]; exact fun h => by cases h), if_pos hlen]

theorem C4_witness :
    cfgFitErr.mlAvailable = true
    ∧ ([] : List Reading).length < TRAINING_SIZE
    ∧ train_model cfgFitErr st0.engine st0.baseline "m1" [] =
        (st0.engine, st0.baseline, .insufficientData TRAINING_SIZE 0) :=
  ⟨rfl, of_decide_eq_true (by with_unfolding_all rfl),
    C4_insufficient_data_no_state_change cfgFitErr st0.engine st0.baseline "m1" [] rfl
      (of_decide_eq_true (by with_unfolding_all rfl))⟩

/-! ## Claim C10: non-success training preserves all state; success
replaces model and scaler together -/

/-- C10: whenever `train_model` returns a non-`success` status
(`ml_unavailable`, `insufficient_data`, `insufficient_features`, or
`training_error` from a raised fit), the engine's model dict, scaler
dict and the baseline-stats map come back exactly unchanged; and on
`success` the model and the scaler for the machine are replaced
together (both by one `upsert` at that machine id, from the same fit),
along with that machine's baseline entry. -/
theorem C10_train_state_discipline (cfg : MLConfig) (e : Engine)
    (b : List (String × Baseline)) (machine_id : String) (readings : List Reading) :
    ((train_model cfg e b machine_id readings).2.2.isSuccess = false →
      (train_model cfg e b machine_id readings).1 = e
      ∧ (train_model cfg e b machine_id readings).2.1 = b)
    ∧ ((train_model cfg e b machine_id readings).2.2.isSuccess = true →
      ∃ scaler mdl,
        cfg.fit (training_features cfg.rsqrt readings) = .ok (scaler, mdl)
        ∧ (train_model cfg e b machine_id readings).1 =
            { models := upsert e.models machine_id mdl,
              scalers := upsert e.scalers machine_id scaler }
        ∧ (train_model cfg e b machine_id readings).2.1 =
            upsert b machine_id (calculate_baseline_stats cfg.rsqrt readings)) := by
  simp only [train_model]
  split_ifs with h1 h2 h3
  · exact ⟨fun _ => ⟨rfl, rfl⟩, fun h => Bool.noConfusion h⟩
  · exact ⟨fun _ => ⟨rfl, rfl⟩, fun h => Bool.noConfusion h⟩
  · exact ⟨fun _ => ⟨rfl, rfl⟩, fun h => Bool.noConfusion h⟩
  · cases hfit : cfg.fit (training_features cfg.rsqrt readings) with
    | error msg => exact ⟨fun _ => ⟨rfl, rfl⟩, fun h => Bool.noConfusion h⟩
    | ok p =>
      obtain ⟨scaler, mdl⟩ := p
      exact ⟨fun h => Bool.noConfusion h, fun _ => ⟨scaler, mdl, rfl, rfl, rfl⟩⟩

theorem C10_witness :
    (train_model cfgNoML st0.engine st0.baseline "m1" []).2.2.isSuccess = false
    ∧ ((train_model cfgNoML st0.engine st0.baseline "m1" []).1 = st0.engine
      ∧ (train_model cfgNoML st0.engine st0.baseline "m1" []).2.1 = st0.baseline) :=
  ⟨rfl, (C10_train_state_discipline cfgNoML st0.engine st0.baseline "m1" []).1 rfl⟩

/-! ## Facts about the rule-based verdict used by C1/C2/C8 -/

lemma rule_method_eq (machine_id : String) (recent : List Reading) :
    (simple_rule_based_prediction machine_id recent).method = "rule_based" := by
  rw [simple_rule_based_prediction]
  cases recent.getLast? <;> rfl

lemma rule_confidence_empty (machine_id : String) :
    (simple_rule_based_prediction machine_id []).confidence = 0 := rfl

lemma rule_confidence_nonempty (machine_id : String) (recent : List Reading)
    (h : recent ≠ []) :
    (simple_rule_based_prediction machine_id recent).confidence = 4/5 := by
  rw [simple_rule_based_prediction]
  cases hq : recent.getLast? with
  | none => exact absurd (List.getLast?_eq_none_iff.mp hq) h
  | some latest => rfl

/-- Rounding `round(min(1.0, n / 10), 3)` is exact. -/
lemma pyRound3_confidence (n : ℕ) :
    pyRound3 (min 1 ((n : ℚ) / 10)) = min 1 ((n : ℚ) / 10) := by
  rcases min_cases (1 : ℚ) ((n : ℚ) / 10) with ⟨h1, _⟩ | ⟨h1, _⟩ <;> rw [h1]
  · exact pyRound3_of_mul_int _ 1000 (by norm_num)
  · refine pyRound3_of_mul_int _ (100 * n) ?_
    push_cast
    ring

/-! ## Claim C1: the ensemble score is the max of model and rule scores -/

/-- C1: whenever the model path executes (ML available, a model and a
scaler stored for the machine, and feature extraction succeeds — which
it does exactly when the window has ≥ 3 readings), the returned
`anomaly_score` is the max of the (rounded) normalized model score and
the rule-based score, and in particular is ≥ the score the rule-based
scorer alone returns on the same readings. -/
theorem C1_ensemble_score_is_max (cfg : MLConfig) (e : Engine) (machine_id : String)
    (recent : List Reading) (mdl : MLModel) (scaler : Scaler)
    (hml : cfg.mlAvailable = true)
    (hm : alookup e.models machine_id = some mdl)
    (hs : alookup e.scalers machine_id = some scaler)
    (hlen : 3 ≤ recent.length) :
    ∃ features, safe_extract_features cfg.rsqrt recent = some features
      ∧ (predict_anomaly cfg e machine_id recent).anomaly_score =
          max (pyRound3 (normalizeModelScore (mdl.decision (scaler.transform features))))
            (simple_rule_based_prediction machine_id recent).anomaly_score
      ∧ (simple_rule_based_prediction machine_id recent).anomaly_score ≤
          (predict_anomaly cfg e machine_id recent).anomaly_score := by
  obtain ⟨features, hf, -⟩ := safe_extract_features_length cfg.rsqrt recent hlen
  refine ⟨features, hf, ?_⟩
  have hv : (predict_anomaly cfg e machine_id recent).anomaly_score =
      pyRound3 (max (normalizeModelScore (mdl.decision (scaler.transform features)))
        (simple_rule_based_prediction machine_id recent).anomaly_score) := by
    simp only [predict_anomaly]
    rw [if_neg (by rw [hml]; exact fun h => by cases h), hm, hf, hs]
  rw [hv, pyRound3_max, rule_score_round_fixed]
  exact ⟨rfl, le_max_right _ _⟩

theorem C1_witness :
    cfgFitErr.mlAvailable = true
    ∧ alookup eng1.models "m1" = some mdl0
    ∧ alookup eng1.scalers "m1" = some scl0
    ∧ 3 ≤ ([r0, r0, r0] : List Reading).length
    ∧ ∃ features, safe_extract_features cfgFitErr.rsqrt [r0, r0, r0] = some features
      ∧ (predict_anomaly cfgFitErr eng1 "m1" [r0, r0, r0]).anomaly_score =
          max (pyRound3 (normalizeModelScore (mdl0.decision (scl0.transform features))))
            (simple_rule_based_prediction "m1" [r0, r0, r0]).anomaly_score
      ∧ (simple_rule_based_prediction "m1" [r0, r0, r0]).anomaly_score ≤
          (predict_anomaly cfgFitErr eng1 "m1" [r0, r0, r0]).anomaly_score :=
  ⟨rfl, rfl, rfl, of_decide_eq_true (by with_unfolding_all rfl),
    C1_ensemble_score_is_max cfgFitErr eng1 "m1" [r0, r0, r0] mdl0 scl0 rfl rfl rfl
      (of_decide_eq_true (by with_unfolding_all rfl))⟩

/-! ## Claim C2: the rule-based scorer on an all-missing newest reading

The claim says such a window yields score 0 and no alerts.  On the
code, every missing channel is coerced to `0.0` by `_safe_float`, so the
power check `power > 5000 or power < 10` fires at `power = 0.0`: the
verdict is score `0.5` with the single alert `"Power consumption
anomaly"` (and `anomaly_detected` is indeed `false`, as `0.5 ≤ 0.7`). -/

/-- C2 counterexample: on the window `[rEmpty]` (newest — and only —
reading has every channel missing) the rule-based scorer returns score
`0.5` and one alert, refuting "score 0 and an empty alerts list". -/
theorem C2_counterexample :
    ¬ ((simple_rule_based_prediction "m1" [rEmpty]).anomaly_score = 0
      ∧ (simple_rule_based_prediction "m1" [rEmpty]).alerts = [])
    ∧ (simple_rule_based_prediction "m1" [rEmpty]).anomaly_score = 1/2
    ∧ (simple_rule_based_prediction "m1" [rEmpty]).alerts = ["Power consumption anomaly"]
    ∧ (simple_rule_based_prediction "m1" [rEmpty]).anomaly_detected = false :=
  of_decide_eq_true (by with_unfolding_all rfl)

/-- C2 amended: on a window whose most recent reading has every channel
missing, the rule-based scorer returns anomaly score `0.5`, exactly the
alert `"Power consumption anomaly"` (the all-zero defaults trip the
low-power threshold `power < 10`), and `anomaly_detected = false`. -/
theorem C2_amended_empty_reading (machine_id : String) (recent : List Reading)
    (latest : Reading) (hlast : recent.getLast? = some latest)
    (hempty : latest.sensor_data =
      { temperature_c := none, current_a := none, power_w := none,
        vibration_x_g := none }) :
    (simple_rule_based_prediction machine_id recent).anomaly_score = 1/2
    ∧ (simple_rule_based_prediction machine_id recent).alerts = ["Power consumption anomaly"]
    ∧ (simple_rule_based_prediction machine_id recent).anomaly_detected = false
    ∧ (simple_rule_based_prediction machine_id recent).confidence = 4/5
    ∧ (simple_rule_based_prediction machine_id recent).method = "rule_based" := by
  have hv : simple_rule_based_prediction machine_id recent =
      { anomaly_detected := decide (ANOMALY_THRESHOLD < max 0 (1/2)),
        anomaly_score := pyRound3 (max 0 (1/2)),
        confidence := 4/5,
        alerts := [] ++ ["Power consumption anomaly"],
        method := "rule_based" } := by
    rw [simple_rule_based_prediction, hlast]
    simp only [hempty, safe_float, Option.getD_none, abs_zero]
    norm_num [ANOMALY_THRESHOLD]
  rw [hv]
  refine ⟨?_, rfl, ?_, rfl, rfl⟩
  · rw [max_eq_right (by norm_num : (0:ℚ) ≤ 1/2)]
    exact pyRound3_of_mul_int _ 500 (by norm_num)
  · rw [max_eq_right (by norm_num : (0:ℚ) ≤ 1/2)]
    simp [ANOMALY_THRESHOLD]
    norm_num

theorem C2_witness :
    ([rEmpty].getLast? = some rEmpty)
    ∧ rEmpty.sensor_data =
        { temperature_c := none, current_a := none, power_w := none,
          vibration_x_g := none }
    ∧ (simple_rule_based_prediction "m2" [rEmpty]).anomaly_score = 1/2
    ∧ (simple_rule_based_prediction "m2" [rEmpty]).alerts = ["Power consumption anomaly"] :=
  ⟨rfl, rfl,
    (C2_amended_empty_reading "m2" [rEmpty] rEmpty rfl rfl).1,
    (C2_amended_empty_reading "m2" [rEmpty] rEmpty rfl rfl).2.1⟩

/-! ## Claim C8: confidence values

The claim says confidence is `min(1, window_length / 10)` on the model
path and a fixed `0.8` on every pure rule-based verdict.  The second
half fails on the code for an empty readings list: the early-return of
`_simple_rule_based_prediction` has `confidence: 0.0` (with method
still `"rule_based"`). -/

/-- C8 counterexample: `predict_anomaly` with no stored model and an
empty readings list produces a pure rule-based verdict whose confidence
is `0.0`, not the fixed `0.8` the claim states. -/
theorem C8_counterexample :
    (predict_anomaly cfgFitErr st0.engine "m1" []).method = "rule_based"
    ∧ (predict_anomaly cfgFitErr st0.engine "m1" []).confidence = 0
    ∧ ¬ ((predict_anomaly cfgFitErr st0.engine "m1" []).confidence = 4/5) :=
  of_decide_eq_true (by with_unfolding_all rfl)

/-- A helper: the C8 conjunction shape, for the rule-based verdict. -/
lemma rule_verdict_confidence_shape (machine_id : String) (recent : List Reading) :
    ((simple_rule_based_prediction machine_id recent).method = "ml_with_rules" →
      (simple_rule_based_prediction machine_id recent).confidence =
        min 1 ((recent.length : ℚ) / 10))
    ∧ ((simple_rule_based_prediction machine_id recent).method = "rule_based" →
      (recent ≠ [] → (simple_rule_based_prediction machine_id recent).confidence = 4/5)
      ∧ (recent = [] → (simple_rule_based_prediction machine_id recent).confidence = 0)) := by
  constructor
  · intro h
    rw [rule_method_eq] at h
    exact absurd h (by decide)
  · intro _
    exact ⟨fun hne => rule_confidence_nonempty machine_id recent hne,
      fun he => by rw [he]; exact rule_confidence_empty machine_id⟩

/-- C8 amended: on the model path (`method = "ml_with_rules"`) the
confidence is `min(1, window_length / 10)`; a pure rule-based verdict
(`method = "rule_based"`) has confidence `0.8` when the readings list is
non-empty and `0.0` when it is empty. -/
theorem C8_amended_confidence (cfg : MLConfig) (e : Engine) (machine_id : String)
    (recent : List Reading) :
    ((predict_anomaly cfg e machine_id recent).method = "ml_with_rules" →
      (predict_anomaly cfg e machine_id recent).confidence =
        min 1 ((recent.length : ℚ) / 10))
    ∧ ((predict_anomaly cfg e machine_id recent).method = "rule_based" →
      (recent ≠ [] → (predict_anomaly cfg e machine_id recent).confidence = 4/5)
      ∧ (recent = [] → (predict_anomaly cfg e machine_id recent).confidence = 0)) := by
  by_cases hml : cfg.mlAvailable = false
  · rw [predict_anomaly, if_pos hml]
    exact rule_verdict_confidence_shape machine_id recent
  · rw [predict_anomaly, if_neg hml]
    cases hm : alookup e.models machine_id with
    | none => exact rule_verdict_confidence_shape machine_id recent
    | some mdl =>
      cases hf : safe_extract_features cfg.rsqrt recent with
      | none => exact rule_verdict_confidence_shape machine_id recent
      | some features =>
        cases hs : alookup e.scalers machine_id with
        | none => exact rule_verdict_confidence_shape machine_id recent
        | some scaler =>
          dsimp only
          refine ⟨fun _ => ?_, fun h => absurd h (by decide)⟩
          exact pyRound3_confidence recent.length

theorem C8_witness :
    (predict_anomaly cfgFitErr eng1 "m1" [r0, r0, r0, r0, r0]).method = "ml_with_rules"
    ∧ (predict_anomaly cfgFitErr eng1 "m1" [r0, r0, r0, r0, r0]).confidence =
        min 1 ((([r0, r0, r0, r0, r0] : List Reading).length : ℚ) / 10) :=
  ⟨of_decide_eq_true (by with_unfolding_all rfl),
    (C8_amended_confidence cfgFitErr eng1 "m1" [r0, r0, r0, r0, r0]).1
      (of_decide_eq_true (by with_unfolding_all rfl))⟩

/-! ## Claim C5: imputation and channel dropping in feature extraction

The claim says missing values are imputed with the channel's mean over
the window and fully-missing channels are dropped (shortening the
vector).  On the code, `_safe_float` turns every missing value into
`0.0` *before* the DataFrame is built, so the DataFrame never holds
NaN: `dropna(axis=1, how='all')` drops nothing and
`fillna(df.mean())` fills nothing.  Missing values are in effect
imputed with `0.0`, fully-missing channels become all-zero columns, and
the vector always has `4 channels × 4 stats = 16` entries. -/

/-- A reading with temperature missing and the other channels present. -/
def rNoTemp : Reading :=
  { sensor_data :=
    { temperature_c := none, current_a := some 1, power_w := some 100,
      vibration_x_g := some (1/10) } }

/-- A reading like `r0` but with `temperature_c = 10`. -/
def rT10 : Reading :=
  { sensor_data :=
    { temperature_c := some 10, current_a := some 1, power_w := some 100,
      vibration_x_g := some (1/10) } }

/-- C5 counterexample.  On the window `[rNoTemp, rNoTemp, rNoTemp]`
(temperature missing from every reading) the claim requires the
temperature channel to be dropped, shortening the vector to 12 entries;
the code returns a 16-entry vector.  On `[rT10, rT10, rNoTemp]`
(temperature 10, 10, missing) the claim's mean-imputation would give a
temperature column `[10, 10, 10]` with mean feature 10; the code's
zero-default gives `[10, 10, 0]` with mean feature `20/3` — the head of
the feature vector is the temperature mean. -/
theorem C5_counterexample :
    ((safe_extract_features rzero [rNoTemp, rNoTemp, rNoTemp]).map List.length = some 16)
    ∧ ¬ ((safe_extract_features rzero [rNoTemp, rNoTemp, rNoTemp]).map List.length = some 12)
    ∧ ((safe_extract_features rzero [rT10, rT10, rNoTemp]).map
        (fun v => v.headD 0) = some (20/3))
    ∧ ¬ ((safe_extract_features rzero [rT10, rT10, rNoTemp]).map
        (fun v => v.headD 0) = some 10) :=
  of_decide_eq_true (by with_unfolding_all rfl)

/-- Replacing every missing channel value by an explicit `0.0` — what
`_safe_float` does pointwise. -/
def fillMissing (r : Reading) : Reading :=
  { sensor_data :=
    { temperature_c := some (safe_float r.sensor_data.temperature_c),
      current_a := some (safe_float r.sensor_data.current_a),
      power_w := some (safe_float r.sensor_data.power_w),
      vibration_x_g := some (safe_float r.sensor_data.vibration_x_g) } }

/-- C5 amended: on every window of at least 3 readings, feature
extraction succeeds with a vector of exactly 16 entries — fully-missing
channels are not dropped and never shorten the vector — and the result
is unchanged when every missing value is first replaced by `0.0`:
missing values are imputed with `0.0` (not with the channel mean). -/
theorem C5_amended_zero_fill (rsq : ℚ → ℚ) (w : List Reading) (h : 3 ≤ w.length) :
    ∃ v, safe_extract_features rsq w = some v ∧ v.length = 16
      ∧ safe_extract_features rsq (w.map fillMissing) = some v := by
  have hmap : ∀ (ch : SensorData → Option ℚ),
      (∀ r : Reading, ch (fillMissing r).sensor_data = some (safe_float (ch r.sensor_data))) →
      channelCol (w.map fillMissing) ch = channelCol w ch := by
    intro ch hch
    simp only [channelCol, List.map_map]
    congr 1
    funext r
    simp only [Function.comp_apply, hch r, safe_float, Option.getD_some]
  obtain ⟨v, hv, hlen16⟩ := safe_extract_features_length rsq w h
  refine ⟨v, hv, hlen16, ?_⟩
  rw [safe_extract_features_of_three_le rsq (w.map fillMissing) (by simpa using h),
    hmap _ (fun r => rfl), hmap _ (fun r => rfl), hmap _ (fun r => rfl),
    hmap _ (fun r => rfl), ← safe_extract_features_of_three_le rsq w h, hv]

theorem C5_witness :
    3 ≤ ([rNoTemp, rNoTemp, rNoTemp] : List Reading).length
    ∧ ∃ v, safe_extract_features rzero [rNoTemp, rNoTemp, rNoTemp] = some v
      ∧ v.length = 16
      ∧ safe_extract_features rzero ([rNoTemp, rNoTemp, rNoTemp].map fillMissing) = some v :=
  ⟨of_decide_eq_true (by with_unfolding_all rfl),
    C5_amended_zero_fill rzero [rNoTemp, rNoTemp, rNoTemp]
      (of_decide_eq_true (by with_unfolding_all rfl))⟩

/-! ## Claim C6: how often auto-training is attempted

The claim says auto-training is attempted at most once per increase of
the buffer's size, and in particular not repeatedly while the buffer
size stays constant at capacity.  The `/ingest` handler actually
attempts training on *every* call for which the machine has no model
and the (post-append) buffer holds ≥ `TRAINING_SIZE` readings; when
training keeps failing (e.g. the ML libraries are absent) and the
buffer sits at capacity 100, every further reading re-attempts
training with no size increase. -/

lemma train_model_models_lookup_ne (cfg : MLConfig) (e : Engine)
    (b : List (String × Baseline)) (m : String) (rs : List Reading) (mid : String)
    (h : mid ≠ m) :
    alookup (train_model cfg e b m rs).1.models mid = alookup e.models mid := by
  simp only [train_model]
  split_ifs
  · rfl
  · rfl
  · rfl
  · cases cfg.fit (training_features cfg.rsqrt rs) with
    | error msg => rfl
    | ok p => exact alookup_upsert_ne _ _ _ _ h

/-- One `/ingest` call never removes or replaces an existing model:
if machine `mid` has model `mdl` stored, it still has exactly `mdl`
afterwards, whichever machine the call was for. -/
lemma ingest_preserves_model (cfg : MLConfig) (st : ServiceState) (m : String)
    (r : Reading) (mid : String) (mdl : MLModel)
    (h : alookup st.engine.models mid = some mdl) :
    alookup (ingest_sensor_data cfg st m r).state.engine.models mid = some mdl := by
  simp only [ingest_sensor_data]
  split
  next hcond =>
    by_cases hm : mid = m
    · subst hm
      rw [h] at hcond
      simp at hcond
    · rw [train_model_models_lookup_ne _ _ _ _ _ _ hm]
      exact h
  next hcond => exact h

/-- With no model stored for the machine, an `/ingest` call attempts
training exactly when the post-append buffer holds at least
`TRAINING_SIZE` readings — regardless of whether the buffer grew. -/
lemma ingest_attempt_iff_no_model (cfg : MLConfig) (st : ServiceState) (m : String)
    (r : Reading) :
    (ingest_sensor_data cfg st m r).attemptedTrain =
      ((alookup st.engine.models m).isNone
        && decide (TRAINING_SIZE ≤
          (dequeAppend HISTORY_SIZE (histOf st m) r).length)) := rfl

/-- C6 counterexample state: 102 ingest calls for machine `"m1"` from a
fresh state with the ML libraries unavailable, so training always fails
and no model is ever stored. -/
def st100 : ServiceState := ingestList cfgNoML st0 "m1" (List.replicate 100 r0)

def step101 : IngestResult := ingest_sensor_data cfgNoML st100 "m1" r0

def step102 : IngestResult := ingest_sensor_data cfgNoML step101.state "m1" r0

set_option maxRecDepth 40000 in
set_option maxHeartbeats 2000000 in
/-- C6 counterexample.  After 100 ingested readings the buffer sits at
its capacity 100.  Ingests 101 and 102 both leave the buffer size at
100 — zero size increases — yet both attempt training, refuting
"attempted at most once per increase of the buffer's size / not
repeatedly while the buffer size stays constant at capacity".  The
final clause is the negation of the claim instance "if the buffer did
not grow during the call, training was not attempted". -/
theorem C6_counterexample :
    (histOf st100 "m1").length = 100
    ∧ step101.attemptedTrain = true
    ∧ (histOf step101.state "m1").length = 100
    ∧ step102.attemptedTrain = true
    ∧ (histOf step102.state "m1").length = 100
    ∧ ¬ ((histOf step102.state "m1").length = (histOf step101.state "m1").length →
        step102.attemptedTrain = false) :=
  of_decide_eq_true (by with_unfolding_all rfl)

/-- C6 amended: auto-training is attempted on exactly those ingest
calls where the machine has no stored model and the post-append buffer
holds at least `TRAINING_SIZE` readings (so, while training keeps
failing, on every such call even at constant buffer size); and once a
model is stored it persists, after which no later ingest call for that
machine ever attempts training again. -/
theorem C6_amended_auto_train_trigger (cfg : MLConfig) (st : ServiceState)
    (mid : String) (mdl : MLModel) (steps : List (String × Reading))
    (hmodel : alookup st.engine.models mid = some mdl) :
    alookup (ingestSteps cfg st steps).1.engine.models mid = some mdl
    ∧ ∀ p ∈ (ingestSteps cfg st steps).2, p.1 = mid → p.2 = false := by
  induction steps generalizing st with
  | nil => exact ⟨hmodel, by intro p hp; cases hp⟩
  | cons s rest ih =>
    obtain ⟨m, r⟩ := s
    have hpres := ingest_preserves_model cfg st m r mid mdl hmodel
    obtain ⟨ih1, ih2⟩ := ih _ hpres
    refine ⟨ih1, ?_⟩
    intro p hp hpm
    rcases List.mem_cons.mp hp with hph | hpt
    · subst hph
      simp only at hpm
      subst hpm
      rw [ingest_attempt_iff_no_model, hmodel]
      rfl
    · exact ih2 p hpt hpm

theorem C6_witness :
    alookup eng1.models "m1" = some mdl0
    ∧ (alookup (ingestSteps cfgNoML
        { sensor_history := [], engine := eng1, baseline := [] }
        [("m1", r0), ("m2", r0), ("m1", rEmpty)]).1.engine.models "m1" = some mdl0
      ∧ ∀ p ∈ (ingestSteps cfgNoML
          { sensor_history := [], engine := eng1, baseline := [] }
          [("m1", r0), ("m2", r0), ("m1", rEmpty)]).2, p.1 = "m1" → p.2 = false) :=
  ⟨rfl,
    C6_amended_auto_train_trigger cfgNoML
      { sensor_history := [], engine := eng1, baseline := [] } "m1" mdl0
      [("m1", r0), ("m2", r0), ("m1", rEmpty)] rfl⟩

end PdM

namespace Edge

/-! ## Claim C7: edge sync batch atomicity -/

/-- C7: one sync cycle over the unsynced batch (the first 1000 unsynced
rows, assuming the table's primary-key ids are distinct) either marks
exactly the rows of that batch synced — on an HTTP 200 acknowledgment —
or changes nothing at all (non-200 status, or a raised
timeout/network error, i.e. `post ≠ some 200`); and in every case the
row payloads, their ids, their count and their order are untouched: no
row is ever deleted by the sync path. -/
theorem C7_sync_batch_atomic (post : Option ℕ) (rows : List EdgeRow)
    (hids : (rows.map EdgeRow.id).Nodup) :
    ((sync_sensor_readings post rows).map stripSynced = rows.map stripSynced)
    ∧ (post = some 200 →
        sync_sensor_readings post rows =
          rows.map (markSynced ((unsyncedBatch rows).map (fun r => r.id))))
    ∧ (post ≠ some 200 → sync_sensor_readings post rows = rows)
    ∧ (post = some 200 → ∀ r ∈ unsyncedBatch rows,
        { r with synced := true } ∈ sync_sensor_readings post rows)
    ∧ (post = some 200 → ∀ r ∈ rows, r ∉ unsyncedBatch rows →
        r ∈ sync_sensor_readings post rows) := by
  have hbatch_sub : ∀ r ∈ unsyncedBatch rows, r ∈ rows := fun r hr =>
    List.mem_of_mem_filter (List.mem_of_mem_take hr)
  simp only [sync_sensor_readings]
  by_cases hb : (unsyncedBatch rows).isEmpty
  · rw [if_pos hb]
    have hbe : unsyncedBatch rows = [] := by
      cases hq : unsyncedBatch rows with
      | nil => rfl
      | cons a t => rw [hq] at hb; cases hb
    refine ⟨rfl, ?_, fun _ => rfl, ?_, fun _ => fun r hr _ => hr⟩
    · intro _
      rw [hbe]
      rw [show markSynced (([] : List EdgeRow).map (fun r => r.id)) = fun r => r from
        funext fun r => by simp [markSynced]]
      rw [List.map_id']
    · intro _ r hr
      rw [hbe] at hr
      cases hr
  · rw [if_neg hb]
    by_cases hp : post = some 200
    · rw [if_pos hp]
      refine ⟨?_, fun _ => rfl, fun hp' => absurd hp hp', ?_, ?_⟩
      · rw [List.map_map]
        congr 1
        funext r
        by_cases h : r.id ∈ (unsyncedBatch rows).map (fun r => r.id) <;>
          simp [markSynced, h, stripSynced, Function.comp]
      · intro _ r hr
        have hmem : r.id ∈ (unsyncedBatch rows).map (fun r => r.id) :=
          List.mem_map_of_mem _ hr
        have hfr : markSynced ((unsyncedBatch rows).map (fun r => r.id)) r =
            { r with synced := true } := by
          rw [markSynced, if_pos hmem]
        exact hfr ▸ List.mem_map_of_mem _ (hbatch_sub r hr)
      · intro _ r hr hnb
        have hnotid : r.id ∉ (unsyncedBatch rows).map (fun r => r.id) := by
          intro hin
          obtain ⟨b, hbmem, hbid⟩ := List.mem_map.mp hin
          have hbr : b = r :=
            List.inj_on_of_nodup_map hids (hbatch_sub b hbmem) hr hbid
          exact hnb (hbr ▸ hbmem)
        have hfr : markSynced ((unsyncedBatch rows).map (fun r => r.id)) r = r := by
          rw [markSynced, if_neg hnotid]
        exact hfr ▸ List.mem_map_of_mem _ hr
    · rw [if_neg hp]
      exact ⟨rfl, fun hp' => absurd hp' hp, fun _ => rfl,
        fun hp' => absurd hp' hp, fun _ => fun r hr _ => hr⟩

/-- Concrete rows: one already synced, two unsynced, distinct ids. -/
def rowsW : List EdgeRow :=
  [{ id := 1, machine_id := "m1", timestamp := "t1", sensor_type := "temperature",
     value := 50, synced := true },
   { id := 2, machine_id := "m1", timestamp := "t2", sensor_type := "temperature",
     value := 51, synced := false },
   { id := 3, machine_id := "m2", timestamp := "t3", sensor_type := "vibration",
     value := 1/10, synced := false }]

theorem C7_witness :
    (rowsW.map EdgeRow.id).Nodup
    ∧ (some 500 ≠ some 200 ∧ sync_sensor_readings (some 500) rowsW = rowsW) :=
  ⟨of_decide_eq_true (by with_unfolding_all rfl),
    of_decide_eq_true (by with_unfolding_all rfl),
    (C7_sync_batch_atomic (some 500) rowsW
        (of_decide_eq_true (by with_unfolding_all rfl))).2.2.1
      (of_decide_eq_true (by with_unfolding_all rfl))⟩

/-! ## Claim C9: edge-local detection can never flag an anomaly

`historical_values` is built as `np.array([[r[3] for r in
recent_readings]])` — one single row.  Per-column (`axis=0`) statistics
are over one element, so every column's standard deviation is exactly
0, the `std_vals[i] > 0` guard never admits a z-score, `max_z_score`
falls back to 0, `is_anomaly = (0 > 3) = False` and `confidence =
min(0/5, 1) = 0`; hence `process_sensor_data_locally` never calls
`generate_local_alert`. -/

lemma colAt_single (recent : List ℚ) (j : ℕ) :
    colAt (edge_historical_values recent) j = [recent.getD j 0] := by
  simp [colAt, edge_historical_values]

lemma edge_std_vals_getD_zero (rsq : ℚ → ℚ) (hr : rsq 0 = 0)
    (recent : List ℚ) (i : ℕ) :
    (edge_std_vals rsq recent).getD i 0 = 0 := by
  rw [edge_std_vals, List.getD_eq_getElem?_getD, List.getElem?_map]
  rcases Nat.lt_or_ge i recent.length with hi | hi
  · rw [List.getElem?_range hi]
    simp only [Option.map_some', Option.getD_some]
    rw [colAt_single, PdM.popVar_singleton, hr]
  · rw [List.getElem?_eq_none (by simpa using hi)]
    rfl

lemma edge_z_scores_nil (rsq : ℚ → ℚ) (hr : rsq 0 = 0)
    (sensor_data : EdgeSensorData) (recent : List ℚ) :
    edge_z_scores rsq sensor_data recent = [] := by
  rw [edge_z_scores]
  apply List.filterMap_eq_nil_iff.mpr
  intro p _
  rw [if_neg]
  rw [edge_std_vals_getD_zero rsq hr recent p.1]
  exact lt_irrefl 0

lemma edge_max_z_score_zero (rsq : ℚ → ℚ) (hr : rsq 0 = 0)
    (sensor_data : EdgeSensorData) (recent : List ℚ) :
    edge_max_z_score rsq sensor_data recent = 0 := by
  rw [edge_max_z_score, edge_z_scores_nil rsq hr sensor_data recent]

/-- C9: for every sensor-data input and every recent-readings window,
`detect_anomaly_locally` returns `is_anomaly = False` with confidence 0
— via the `insufficient_data` branch below 10 readings, and via an
all-zero `std_vals` (one-row historical matrix) with `max_z_score = 0`
at 10 or more — so `process_sensor_data_locally` never generates a
local alert.  The hypothesis `rsq 0 = 0` just pins the abstract square
root at 0 (`np.sqrt(0) == 0.0`). -/
theorem C9_edge_detection_never_flags (rsq : ℚ → ℚ) (hr : rsq 0 = 0)
    (sensor_data : EdgeSensorData) (recent : List ℚ) :
    (detect_anomaly_locally rsq sensor_data recent).is_anomaly = false
    ∧ (detect_anomaly_locally rsq sensor_data recent).confidence = 0
    ∧ (recent.length < 10 →
        (detect_anomaly_locally rsq sensor_data recent).reason = some "insufficient_data")
    ∧ (10 ≤ recent.length →
        (detect_anomaly_locally rsq sensor_data recent).z_score = some 0)
    ∧ process_generates_local_alert rsq sensor_data recent = false := by
  by_cases h : recent.length < 10
  · have hv : detect_anomaly_locally rsq sensor_data recent =
        { is_anomaly := false, confidence := 0, z_score := none,
          reason := some "insufficient_data" } := by
      rw [detect_anomaly_locally, if_pos h]
    refine ⟨by rw [hv], by rw [hv], fun _ => by rw [hv],
      fun hge => absurd hge (by omega), ?_⟩
    rw [process_generates_local_alert, hv]
    rfl
  · have hmz := edge_max_z_score_zero rsq hr sensor_data recent
    have hv : detect_anomaly_locally rsq sensor_data recent =
        { is_anomaly := false, confidence := 0, z_score := some 0,
          reason := none } := by
      rw [detect_anomaly_locally, if_neg h, hmz]
      norm_num
    refine ⟨by rw [hv], by rw [hv], fun hlt => absurd hlt h,
      fun _ => by rw [hv], ?_⟩
    rw [process_generates_local_alert, hv]
    rfl

theorem C9_witness :
    PdM.rzero 0 = 0
    ∧ (detect_anomaly_locally PdM.rzero
        { machine_id := "m1", temperature := some 95, vibration := some 3,
          power := some 4000 }
        (List.replicate 12 (1 : ℚ))).is_anomaly = false
    ∧ process_generates_local_alert PdM.rzero
        { machine_id := "m1", temperature := some 95, vibration := some 3,
          power := some 4000 }
        (List.replicate 12 (1 : ℚ)) = false :=
  ⟨rfl,
    (C9_edge_detection_never_flags PdM.rzero rfl
      { machine_id := "m1", temperature := some 95, vibration := some 3,
        power := some 4000 } (List.replicate 12 (1 : ℚ))).1,
    (C9_edge_detection_never_flags PdM.rzero rfl
      { machine_id := "m1", temperature := some 95, vibration := some 3,
        power := some 4000 } (List.replicate 12 (1 : ℚ))).2.2.2.2⟩

end Edge
